import Mathlib

/-!
Shallow embedding of the editing core of `src/src/abczed.c` (ABCZed, a
terminal text editor): the line store, cursor, selection model, clipboard,
and the undo/redo operation log, together with the theorems that settle the
frozen claims about this code.

Conventions of the embedding:
* A text line (`erow`) is a `List Char`; its `size` field is the list length.
* C `int` fields (`cx`, `cy`, offsets, selection endpoints) are `Int`, since
  the code stores `-1` sentinels and can drive them negative.
* The row array plus `numrows` is a `List (List Char)`; `numrows` is the
  list length.  Out-of-range reads that would be undefined behaviour in C
  are modelled by `rowGet`, which yields `[]` outside the valid range.
* Allocations are assumed to succeed except where a definition explicitly
  models a failure path of the source (see `editor_insert_row_oom`).
* The linked operation stacks are `List Operation` with the head as top.
-/

namespace Abczed

/-- `enum editor_mode` from the source. -/
inductive Mode
  | normal
  | insertMode
  | command
  | selection
  deriving DecidableEq, Repr

/-- `enum operation_type` from the source. -/
inductive OpType
  | insertChar
  | deleteChar
  | insertLine
  | deleteLine
  | newline
  deriving DecidableEq, Repr

/-- `struct operation` from the source: one undo/redo record.  `line` is
`none` exactly when the C `line` pointer is `NULL`. -/
structure Operation where
  type : OpType
  cx : Int
  cy : Int
  c : Char
  line : Option (List Char)
  line_size : Int
  deriving DecidableEq, Repr

/-- The editing-relevant fields of `struct editor_config` (`E`). -/
structure EState where
  cx : Int
  cy : Int
  rowoff : Int
  coloff : Int
  screenrows : Int
  screencols : Int
  row : List (List Char)
  dirty : Int
  statusmsg : String
  mode : Mode
  clipboard : List (List Char)
  clipboard_len : Int
  sel_start_x : Int
  sel_start_y : Int
  sel_end_x : Int
  sel_end_y : Int
  selecting : Bool
  undo_stack : List Operation
  redo_stack : List Operation
  deriving DecidableEq, Repr

/-- Read `E.row[i].chars` ( `[]` outside the valid range, where the C code
would read out of bounds). -/
def rowGet (rows : List (List Char)) (i : Int) : List Char :=
  if 0 ≤ i ∧ i < (rows.length : Int) then rows.getD i.toNat [] else rows.getD 0 []

/-- Write `E.row[i] = v` (no-op outside the valid range). -/
def rowSet (rows : List (List Char)) (i : Int) (v : List Char) : List (List Char) :=
  if i < 0 then rows else rows.set i.toNat v

/-- `push_operation` from the source: the stored `line` copy is made only
when the passed pointer is non-`NULL` and `line_size > 0`; `line_size` is
stored unconditionally. -/
def push_operation (stack : List Operation) (t : OpType) (cx cy : Int) (c : Char)
    (line : Option (List Char)) (line_size : Int) : List Operation :=
  { type := t, cx := cx, cy := cy, c := c,
    line := match line with
      | some l => if line_size > 0 then some l else none
      | none => none,
    line_size := line_size } :: stack

/-- `editor_insert_row` from the source, on the path where both allocations
succeed: bounds check, shift rows at or after `at`, install the new row,
bump `dirty`, set the status message, push `OP_INSERT_LINE`, clear redo. -/
def editor_insert_row (e : EState) (at_ : Int) (s : List Char) : EState :=
  if at_ < 0 ∨ at_ > (e.row.length : Int) then e
  else
    let e := { e with
      row := e.row.take at_.toNat ++ [s] ++ e.row.drop at_.toNat,
      dirty := e.dirty + 1,
      statusmsg := "Line inserted at position " ++ toString (at_ + 1) }
    let e := { e with
      undo_stack := push_operation e.undo_stack .insertLine 0 at_ (Char.ofNat 0)
        (some s) (s.length : Int) }
    { e with redo_stack := [] }

/-- `editor_insert_row` on the path where the row-array `realloc` succeeds
but the `malloc` for the new row's `chars` fails (source lines 279-283):
the `memmove` has already shifted rows `at..numrows-1` one slot later, the
function returns with `numrows` unchanged, so the visible rows duplicate
row `at` and the last pre-operation row has been pushed out of view.  No
operation is pushed and `dirty` is unchanged. -/
def editor_insert_row_oom (e : EState) (at_ : Int) : EState :=
  if at_ < 0 ∨ at_ > (e.row.length : Int) then e
  else
    { e with
      row := e.row.take (at_.toNat + 1) ++
        (e.row.drop at_.toNat).take (e.row.length - at_.toNat - 1),
      statusmsg := "Memory allocation failed" }

/-- `editor_del_row` from the source: bounds check, push `OP_DELETE_LINE`
carrying a copy of the row, remove the row, bump `dirty`, clear redo. -/
def editor_del_row (e : EState) (at_ : Int) : EState :=
  if at_ < 0 ∨ at_ ≥ (e.row.length : Int) then e
  else
    let r := rowGet e.row at_
    let e := { e with
      undo_stack := push_operation e.undo_stack .deleteLine 0 at_ (Char.ofNat 0)
        (some r) (r.length : Int) }
    let e := { e with row := e.row.eraseIdx at_.toNat, dirty := e.dirty + 1 }
    { e with redo_stack := [] }

/-- `editor_insert_char` from the source (allocation succeeds): append an
empty row when the cursor sits one past the last row, push `OP_INSERT_CHAR`,
splice the character in at `cx`, advance `cx`, bump `dirty`, clear redo. -/
def editor_insert_char (e : EState) (c : Char) : EState :=
  let e := if e.cy = (e.row.length : Int) then editor_insert_row e (e.row.length : Int) [] else e
  let r := rowGet e.row e.cy
  let e := { e with
    undo_stack := push_operation e.undo_stack .insertChar e.cx e.cy c none 0 }
  let e := { e with
    row := rowSet e.row e.cy (r.take e.cx.toNat ++ [c] ++ r.drop e.cx.toNat),
    cx := e.cx + 1,
    dirty := e.dirty + 1 }
  { e with redo_stack := [] }

/-- `editor_insert_newline` from the source: clears redo up front; with no
rows it inserts one empty row (via `editor_insert_row`, which itself logs an
`OP_INSERT_LINE`) and logs an `OP_NEWLINE`; otherwise it copies the suffix
after the cursor, inserts the split row (again via `editor_insert_row`),
truncates the current row when `cx > 0`, logs an `OP_NEWLINE` carrying the
suffix, and moves the cursor to the start of the next row. -/
def editor_insert_newline (e : EState) : EState :=
  let e := { e with redo_stack := [] }
  if e.row.length = 0 then
    let e := editor_insert_row e 0 []
    let e := { e with
      undo_stack := push_operation e.undo_stack .newline 0 0 '\n' none 0 }
    { e with cy := 0, cx := 0, dirty := e.dirty + 1 }
  else
    let curRow := rowGet e.row e.cy
    let line_copy : Option (List Char) :=
      if e.cx < (curRow.length : Int) then some (curRow.drop e.cx.toNat) else none
    let line_size : Int :=
      if e.cx < (curRow.length : Int) then (curRow.length : Int) - e.cx else 0
    let e :=
      if e.cx = 0 then editor_insert_row e e.cy []
      else
        let e := editor_insert_row e (e.cy + 1) (curRow.drop e.cx.toNat)
        { e with row := rowSet e.row e.cy (curRow.take e.cx.toNat) }
    let e := { e with
      undo_stack := push_operation e.undo_stack .newline e.cx e.cy '\n' line_copy line_size }
    { e with cy := e.cy + 1, cx := 0, dirty := e.dirty + 1 }

/-- `editor_del_char` from the source: no-op when the cursor is one past the
last row or at the very start of the buffer.  With `cx > 0` it logs an
`OP_DELETE_CHAR` and splices the character out.  With `cx = 0` it sets `cx`
to the previous row's length, then calls `editor_insert_row(cy-1, row)` with
the current row's content (inserting a copy of the current row *above* the
previous row) and `editor_del_row(cy)` (which now removes the previous
row), and decrements `cy`.  Both helpers log their own operations.  Finally
the redo stack is cleared. -/
def editor_del_char (e : EState) : EState :=
  if e.cy = (e.row.length : Int) then e
  else if e.cx = 0 ∧ e.cy = 0 then e
  else
    let r := rowGet e.row e.cy
    let e :=
      if e.cx > 0 then
        let e := { e with
          undo_stack := push_operation e.undo_stack .deleteChar (e.cx - 1) e.cy
            (r.getD (e.cx - 1).toNat (Char.ofNat 0)) none 0 }
        { e with
          row := rowSet e.row e.cy (r.take (e.cx - 1).toNat ++ r.drop e.cx.toNat),
          cx := e.cx - 1,
          dirty := e.dirty + 1 }
      else
        let e := { e with cx := (rowGet e.row (e.cy - 1)).length }
        let e := editor_insert_row e (e.cy - 1) r
        let e := editor_del_row e e.cy
        { e with cy := e.cy - 1 }
    { e with redo_stack := [] }

/-- `editor_undo` from the source.  On an empty stack it only sets the
status message.  Otherwise it pops one operation, applies its inverse
(char inverses act directly on the row list; line and newline inverses go
through `editor_del_row` / `editor_insert_row`, which push operations of
their own and clear the redo stack), mutates the popped `OP_NEWLINE`
record's `line` in place for redo, and pushes the popped operation onto the
redo stack.  Reallocations are assumed to succeed. -/
def editor_undo (e : EState) : EState :=
  match e.undo_stack with
  | [] => { e with statusmsg := "Nothing to undo" }
  | op :: rest =>
    let e := { e with undo_stack := rest }
    let res : EState × Operation :=
      match op.type with
      | .insertChar =>
        let e := { e with cx := op.cx, cy := op.cy }
        let e :=
          if e.cy < (e.row.length : Int) then
            let r := rowGet e.row e.cy
            if e.cx < (r.length : Int) then
              { e with
                row := rowSet e.row e.cy (r.take e.cx.toNat ++ r.drop (e.cx.toNat + 1)),
                dirty := e.dirty + 1 }
            else e
          else e
        (e, op)
      | .deleteChar =>
        let e := { e with cx := op.cx, cy := op.cy }
        let e :=
          if e.cy < (e.row.length : Int) then
            let r := rowGet e.row e.cy
            { e with
              row := rowSet e.row e.cy (r.take e.cx.toNat ++ [op.c] ++ r.drop e.cx.toNat),
              dirty := e.dirty + 1 }
          else e
        (e, op)
      | .insertLine =>
        let e := editor_del_row e op.cy
        ({ e with cx := 0, cy := op.cy }, op)
      | .deleteLine =>
        let e := editor_insert_row e op.cy (op.line.getD [])
        ({ e with cx := 0, cy := op.cy }, op)
      | .newline =>
        if 0 < e.cy then
          let prev := rowGet e.row (e.cy - 1)
          let curr := rowGet e.row e.cy
          let line_copy := op.line
          let e := { e with row := rowSet e.row (e.cy - 1) (prev ++ curr) }
          let e := editor_del_row e e.cy
          let e := { e with cy := e.cy - 1, cx := op.cx, dirty := e.dirty + 1 }
          let op := { op with
            line := line_copy,
            line_size := match line_copy with
              | some l => (l.length : Int)
              | none => 0 }
          (e, op)
        else (e, op)
    let e := res.1
    let op := res.2
    { e with
      redo_stack := push_operation e.redo_stack op.type op.cx op.cy op.c op.line op.line_size }

/-- `editor_redo` from the source.  On an empty stack it only sets the
status message.  Otherwise it pops one operation, re-applies the forward
effect by calling back into the edit-engine entry points (which push their
own undo records and, for the char cases, clear the remaining redo stack),
and pushes the popped operation onto the undo stack. -/
def editor_redo (e : EState) : EState :=
  match e.redo_stack with
  | [] => { e with statusmsg := "Nothing to redo" }
  | op :: rest =>
    let e := { e with redo_stack := rest }
    let e :=
      match op.type with
      | .insertChar => editor_insert_char { e with cx := op.cx, cy := op.cy } op.c
      | .deleteChar => editor_del_char { e with cx := op.cx + 1, cy := op.cy }
      | .insertLine =>
        let e := editor_insert_row e op.cy (op.line.getD [])
        { e with cx := 0, cy := op.cy }
      | .deleteLine =>
        let e := editor_del_row e op.cy
        { e with cx := 0, cy := op.cy }
      | .newline =>
        if e.cy < (e.row.length : Int) then
          let save_cx := e.cx
          let save_cy := e.cy
          let e := { e with cx := op.cx, cy := op.cy }
          let e := editor_insert_newline e
          let e :=
            match op.line with
            | some l => if op.line_size > 0 then { e with row := rowSet e.row e.cy l } else e
            | none => e
          { e with cx := save_cx, cy := save_cy }
        else e
    { e with
      undo_stack := push_operation e.undo_stack op.type op.cx op.cy op.c op.line op.line_size }

/-- `editor_selection_update` from the source. -/
def editor_selection_update (e : EState) : EState :=
  if e.selecting then { e with sel_end_x := e.cx, sel_end_y := e.cy } else e

/-- `editor_selection_clear` from the source. -/
def editor_selection_clear (e : EState) : EState :=
  { e with sel_start_x := -1, sel_start_y := -1, sel_end_x := -1, sel_end_y := -1,
           selecting := false }

/-- `editor_selection_normalize` from the source: swap the endpoints when
the end precedes the start in row-major order. -/
def editor_selection_normalize (e : EState) : EState :=
  if e.sel_end_y < e.sel_start_y ∨
      (e.sel_end_y = e.sel_start_y ∧ e.sel_end_x < e.sel_start_x) then
    { e with
      sel_start_x := e.sel_end_x, sel_start_y := e.sel_end_y,
      sel_end_x := e.sel_start_x, sel_end_y := e.sel_start_y }
  else e

/-- The containment test of `is_position_selected` after the selection has
been normalized locally to `(sx, sy)`-`(ex, ey)`. -/
def isSelAux (sx sy ex ey x y : Int) : Bool :=
  if y < sy ∨ y > ey then false
  else if y = sy ∧ x < sx then false
  else if y = ey ∧ x ≥ ex then false
  else true

/-- `is_position_selected` from the source: false with no active selection;
otherwise normalize a local copy of the selection and test containment with
half-open semantics. -/
def is_position_selected (e : EState) (x y : Int) : Bool :=
  if e.selecting = false ∨ e.sel_start_x = -1 then false
  else if e.sel_end_y < e.sel_start_y ∨
      (e.sel_end_y = e.sel_start_y ∧ e.sel_end_x < e.sel_start_x) then
    isSelAux e.sel_end_x e.sel_end_y e.sel_start_x e.sel_start_y x y
  else
    isSelAux e.sel_start_x e.sel_start_y e.sel_end_x e.sel_end_y x y

/-- `editor_copy_selection` from the source: report when no selection
exists; otherwise destructively normalize the selection and replace the
clipboard with the covered substrings (first and last lines clipped to the
selection bounds, interior lines taken whole). -/
def editor_copy_selection (e : EState) : EState :=
  if e.sel_start_x = -1 ∨ e.sel_start_y = -1 ∨ e.sel_end_x = -1 ∨ e.sel_end_y = -1 then
    { e with statusmsg := "No selection to copy" }
  else
    let e := editor_selection_normalize e
    let num_lines : Int := e.sel_end_y - e.sel_start_y + 1
    if num_lines ≤ 0 then
      { e with clipboard := [], clipboard_len := 0 }
    else if num_lines = 1 then
      let r := rowGet e.row e.sel_start_y
      let len : Int := e.sel_end_x - e.sel_start_x
      let e := { e with
        clipboard := [(r.drop e.sel_start_x.toNat).take len.toNat],
        clipboard_len := 1 }
      { e with statusmsg := "Copied " ++ toString num_lines ++ " lines" }
    else
      let lines := (List.range num_lines.toNat).filterMap (fun i =>
        if e.sel_start_y + (i : Int) ≥ (e.row.length : Int) then none
        else
          let r := rowGet e.row (e.sel_start_y + (i : Int))
          let start : Int := if i = 0 then e.sel_start_x else 0
          let stop : Int :=
            if (i : Int) = num_lines - 1 then e.sel_end_x else (r.length : Int)
          some ((r.drop start.toNat).take (stop - start).toNat))
      let e := { e with clipboard := lines, clipboard_len := num_lines }
      { e with statusmsg := "Copied " ++ toString num_lines ++ " lines" }

/-- `editor_paste` from the source: with a `NULL` or empty clipboard it only
sets the status message; otherwise it re-invokes `editor_insert_char` per
character and `editor_insert_newline` between clipboard lines. -/
def editor_paste (e : EState) : EState :=
  if e.clipboard = [] ∨ e.clipboard_len = 0 then
    { e with statusmsg := "Nothing to paste" }
  else if e.clipboard_len = 1 then
    let e := (e.clipboard.headD []).foldl (fun s c => editor_insert_char s c) e
    { e with statusmsg := "Pasted " ++ toString e.clipboard_len ++ " lines" }
  else
    let n := e.clipboard_len
    let e := (List.range n.toNat).foldl (fun (s : EState) (i : Nat) =>
      let s := (s.clipboard.getD i []).foldl (fun s c => editor_insert_char s c) s
      if (i : Int) < n - 1 then editor_insert_newline s else s) e
    { e with statusmsg := "Pasted " ++ toString e.clipboard_len ++ " lines" }

/-- The movement keys dispatched by `editor_move_cursor` (`KEY_LEFT`/`h`,
`KEY_RIGHT`/`l`, `KEY_UP`/`k`, `KEY_DOWN`/`j`, `KEY_HOME`/`0`,
`KEY_END`/`$`, `KEY_PPAGE`, `KEY_NPAGE`). -/
inductive MKey
  | left
  | right
  | up
  | down
  | home
  | toEnd
  | ppage
  | npage
  deriving DecidableEq, Repr

/-- The Page-Up loop of `editor_move_cursor`: `while (times--) if (cy > 0) cy--`. -/
def ppageLoop (cy : Int) : Nat → Int
  | 0 => cy
  | n + 1 => ppageLoop (if cy > 0 then cy - 1 else cy) n

/-- The Page-Down loop of `editor_move_cursor`:
`while (times--) if (cy < numrows - 1) cy++`. -/
def npageLoop (cy numrows : Int) : Nat → Int
  | 0 => cy
  | n + 1 => npageLoop (if cy < numrows - 1 then cy + 1 else cy) numrows n

/-- `editor_move_cursor` from the source.  `row` is the line under the
cursor at entry (`NULL`, i.e. `none`, when `cy >= numrows`).  Note the
Page-Down case sets `cy = numrows - 1` whenever the provisional row is past
the end, with no lower clamp.  In selection mode the live endpoint is
updated afterwards. -/
def editor_move_cursor (e : EState) (k : MKey) : EState :=
  let rowOpt : Option (List Char) :=
    if e.cy ≥ (e.row.length : Int) then none else some (rowGet e.row e.cy)
  let e : EState :=
    match k with
    | .left =>
      if e.cx > 0 then { e with cx := e.cx - 1 }
      else if e.cy > 0 then
        { e with cy := e.cy - 1, cx := ((rowGet e.row (e.cy - 1)).length : Int) }
      else e
    | .right =>
      match rowOpt with
      | some r =>
        if e.cx < (r.length : Int) then { e with cx := e.cx + 1 }
        else if e.cx = (r.length : Int) ∧ e.cy < (e.row.length : Int) - 1 then
          { e with cy := e.cy + 1, cx := 0 }
        else e
      | none => e
    | .up =>
      if e.cy > 0 then
        let cy := e.cy - 1
        let sz : Int := ((rowGet e.row cy).length : Int)
        { e with cy := cy, cx := if e.cx > sz then sz else e.cx }
      else e
    | .down =>
      if e.cy < (e.row.length : Int) - 1 then
        let cy := e.cy + 1
        let sz : Int := ((rowGet e.row cy).length : Int)
        { e with cy := cy, cx := if e.cx > sz then sz else e.cx }
      else e
    | .home => { e with cx := 0 }
    | .toEnd =>
      match rowOpt with
      | some r => { e with cx := (r.length : Int) }
      | none => e
    | .ppage =>
      let cy := ppageLoop e.rowoff e.screenrows.toNat
      let e := { e with cy := cy }
      if e.cy < (e.row.length : Int) ∧ e.cx > ((rowGet e.row e.cy).length : Int) then
        { e with cx := ((rowGet e.row e.cy).length : Int) }
      else e
    | .npage =>
      let cy0 := e.rowoff + e.screenrows - 1
      let cy1 := if cy0 ≥ (e.row.length : Int) then (e.row.length : Int) - 1 else cy0
      let cy := npageLoop cy1 (e.row.length : Int) e.screenrows.toNat
      let e := { e with cy := cy }
      if e.cy < (e.row.length : Int) ∧ e.cx > ((rowGet e.row e.cy).length : Int) then
        { e with cx := ((rowGet e.row e.cy).length : Int) }
      else e
  if e.mode = Mode.selection then editor_selection_update e else e

/-- The `'d'` (delete selection) handler of `editor_process_keypress` in
`MODE_SELECTION` (source lines 1791-1839): copy the selection first,
normalize, then either splice the covered substring out of the single row
in place (touching neither operation stack), or truncate the first row,
append the last row's remainder, and remove the covered rows below the
first via `editor_del_row`; finally set the cursor to the selection start,
bump `dirty`, return to normal mode and clear the selection. -/
def editor_delete_selection (e : EState) : EState :=
  let e := editor_copy_selection e
  let e := editor_selection_normalize e
  let e :=
    if e.sel_start_y = e.sel_end_y then
      let r := rowGet e.row e.sel_start_y
      { e with
        row := rowSet e.row e.sel_start_y (r.take e.sel_start_x.toNat ++ r.drop e.sel_end_x.toNat),
        cx := e.sel_start_x, cy := e.sel_start_y }
    else
      let firstKeep := (rowGet e.row e.sel_start_y).take e.sel_start_x.toNat
      let endPart := (rowGet e.row e.sel_end_y).drop e.sel_end_x.toNat
      let e := { e with row := rowSet e.row e.sel_start_y (firstKeep ++ endPart) }
      let e := (List.range (e.sel_end_y - e.sel_start_y).toNat).foldl
        (fun s k => editor_del_row s (s.sel_end_y - (k : Int))) e
      { e with cx := e.sel_start_x, cy := e.sel_start_y }
  let e := { e with dirty := e.dirty + 1, mode := .normal }
  editor_selection_clear e

/-- A fresh editor state over the given rows and cursor, as set up by
`init_editor` (screen geometry fixed at the 3-row minimum the code
enforces). -/
def mkState (rows : List (List Char)) (cx cy : Int) : EState :=
  { cx := cx, cy := cy, rowoff := 0, coloff := 0, screenrows := 3, screencols := 20,
    row := rows, dirty := 0, statusmsg := "", mode := .normal,
    clipboard := [], clipboard_len := 0,
    sel_start_x := -1, sel_start_y := -1, sel_end_x := -1, sel_end_y := -1,
    selecting := false, undo_stack := [], redo_stack := [] }

/-! Concrete states used by the claim theorems. -/

/-- Buffer `["x"]` with the cursor at the end of the line, before the C1
edit sequence. -/
def c1Start : EState := mkState [['x']] 1 0

/-- State after the C1 edit sequence: insert `'a'`, then press Enter. -/
def c1After : EState := editor_insert_newline (editor_insert_char c1Start 'a')

/-- State after undoing the C1 sequence once per operation. -/
def c1Undone : EState := editor_undo (editor_undo c1After)

/-- Buffer `["x"]` with the cursor at the end of the line, before the C2
newline. -/
def c2Start : EState := mkState [['x']] 1 0

/-- Empty buffer after a single `editor_insert_row` of `"a"` at index 0. -/
def c3AfterInsert : EState := editor_insert_row (mkState [] 0 0) 0 ['a']

/-- Empty buffer after a single `editor_insert_newline`. -/
def c4After : EState := editor_insert_newline (mkState [] 0 0)

/-- A pending redo record (an undone character insertion). -/
def c5RedoOp : Operation :=
  { type := .insertChar, cx := 0, cy := 0, c := 'z', line := none, line_size := 0 }

/-- Buffer `["abc"]` with a non-empty redo stack and an armed single-row
selection covering columns 0-2 of row 0. -/
def c5State : EState :=
  { mkState [['a','b','c']] 2 0 with
    redo_stack := [c5RedoOp],
    sel_start_x := 0, sel_start_y := 0, sel_end_x := 2, sel_end_y := 0,
    selecting := true, mode := .selection }

/-- Buffer `["ab","cd"]` with the cursor at the start of row 1. -/
def c6State : EState := mkState [['a','b'],['c','d']] 0 1

/-- Buffer `["a","b"]` before the failing row insertion. -/
def c7State : EState := mkState [['a'],['b']] 0 0

/-- A freshly initialized editor with no rows. -/
def c8State : EState := mkState [] 0 0

/-- Buffer of two rows with an armed, already-normalized selection
`(0,0)`-`(1,2)`. -/
def c9State : EState :=
  { mkState [['a','b','c'], ['d','e','f']] 0 0 with
    sel_start_x := 0, sel_start_y := 0, sel_end_x := 2, sel_end_y := 1,
    selecting := true }

/-- Buffer `["a"]` with an empty clipboard (no copy ever performed). -/
def c10State : EState := mkState [['a']] 0 0

/-! The claim theorems. -/

/-- C1: the claimed undo round-trip fails.  Starting from buffer `["x"]`
with cursor `(1,0)`, applying the two-operation sequence InsertChar `'a'`
then Newline and calling `undo()` once per operation in reverse order does
NOT restore the buffer or the cursor: the buffer ends as `["xa",""]`
instead of `["x"]` and the cursor at `(0,1)` instead of `(1,0)`, because
`editor_insert_newline` logs two records (an `OP_INSERT_LINE` via
`editor_insert_row` plus its own `OP_NEWLINE`) and the newline undo logs a
further `OP_DELETE_LINE`, so the second `undo()` pops a bookkeeping record
instead of the InsertChar. -/
theorem C1_undo_roundtrip_fails :
    c1Undone.row = [['x','a'], []] ∧
    c1Undone.row ≠ c1Start.row ∧
    c1Undone.cx = 0 ∧ c1Undone.cy = 1 ∧
    ¬(c1Undone.cx = c1Start.cx ∧ c1Undone.cy = c1Start.cy) := by decide

/-- C2: a successful buffer-mutating newline does not push exactly one
Operation: `editor_insert_newline` on buffer `["x"]` at cursor `(1,0)`
grows the undo stack by two records (the `OP_INSERT_LINE` pushed by the
nested `editor_insert_row` call plus its own `OP_NEWLINE`). -/
theorem C2_newline_pushes_two_operations :
    c2Start.undo_stack.length = 0 ∧
    (editor_insert_newline c2Start).undo_stack.length = 2 := by decide

/-- C3: `undo()` does not bypass the Edit Engine entry points.  After one
`editor_insert_row` the undo stack holds exactly one record, yet a single
`undo()` leaves the undo stack still of length 1 (its inverse calls
`editor_del_row`, which pushes a fresh `OP_DELETE_LINE`), and a second
`undo()` re-inserts the row (buffer back to `["a"]`, not `[]`) and leaves
the redo stack of length 1 rather than accumulating the popped records. -/
theorem C3_undo_pushes_new_undo_entries :
    c3AfterInsert.undo_stack.length = 1 ∧
    (editor_undo c3AfterInsert).undo_stack.length = 1 ∧
    (editor_undo (editor_undo c3AfterInsert)).undo_stack.length = 1 ∧
    (editor_undo (editor_undo c3AfterInsert)).redo_stack.length = 1 ∧
    (editor_undo (editor_undo c3AfterInsert)).row = [['a']] := by decide

/-- C4: `undo(); redo()` is not content-faithful for every single operation.
A Newline on the empty buffer leaves one empty row, but its undo is a
silent no-op (the `OP_NEWLINE` inverse is guarded by `cy > 0`) and theredo
then splits again, so `undo(); redo()` yields two empty rows instead of
the one row that held immediately after the original operation. -/
theorem C4_undo_redo_newline_duplicates_row :
    c4After.row = [[]] ∧
    (editor_redo (editor_undo c4After)).row = [[], []] ∧
    (editor_redo (editor_undo c4After)).row ≠ c4After.row := by decide

/-- C5: a forward edit can leave the Redo stack non-empty.  Deleting a
single-row selection splices the row in place without calling any Edit
Engine entry point, so a redo record that existed before the edit is still
there afterwards. -/
theorem C5_selection_delete_keeps_redo :
    (editor_delete_selection c5State).row = [['c']] ∧
    (editor_delete_selection c5State).redo_stack.length = 1 := by decide

/-- C6: delete-char at the buffer start is indeed a no-op, but delete-char
at `(cx=0, cy=1)` on `["ab","cd"]` does not merge row 1 into row 0: the
code inserts a copy of row 1 above row 0 and then deletes the shifted row
0, producing `["cd","cd"]` with cursor `(2,0)` instead of `["abcd"]`. -/
theorem C6_del_char_no_merge :
    editor_del_char (mkState [['a','b'],['c','d']] 0 0) =
      mkState [['a','b'],['c','d']] 0 0 ∧
    (editor_del_char c6State).row = [['c','d'], ['c','d']] ∧
    (editor_del_char c6State).row ≠ [['a','b','c','d']] ∧
    (editor_del_char c6State).cx = 2 ∧ (editor_del_char c6State).cy = 0 := by decide

/-- C7: when the `chars` allocation of `editor_insert_row` fails after the
row array has been grown and shifted, the operation is aborted with a
status message but the visible rows no longer describe the pre-operation
buffer: inserting at index 0 of `["a","b"]` leaves `["a","a"]`, duplicating
row 0 and losing row `"b"`. -/
theorem C7_insert_row_oom_corrupts_rows :
    (editor_insert_row_oom c7State 0).row = [['a'], ['a']] ∧
    (editor_insert_row_oom c7State 0).row ≠ c7State.row ∧
    (editor_insert_row_oom c7State 0).statusmsg = "Memory allocation failed" := by decide

/-- C8: cursor movement does not preserve the buffer invariant
`0 ≤ cy ≤ numrows`: Page-Down on an empty buffer executes
`cy = numrows - 1` with `numrows = 0`, driving the cursor row to `-1`. -/
theorem C8_npage_negative_cy :
    (editor_move_cursor c8State MKey.npage).cy = -1 ∧
    ¬(0 ≤ (editor_move_cursor c8State MKey.npage).cy) := by decide

/-- C9: for an active selection that is already normalized
(`start ≤ end` in row-major order), `is_position_selected e x y` is true
iff `sr ≤ y ≤ er`, and `y > sr` or `x ≥ sc`, and `y < er` or `x < ec` —
the half-open containment semantics of the claim. -/
theorem C9_contains_iff (e : EState) (x y : Int)
    (hs : e.selecting = true) (hv : e.sel_start_x ≠ -1)
    (hn : e.sel_start_y < e.sel_end_y ∨
      (e.sel_start_y = e.sel_end_y ∧ e.sel_start_x ≤ e.sel_end_x)) :
    is_position_selected e x y = true ↔
      (e.sel_start_y ≤ y ∧ y ≤ e.sel_end_y ∧
        (y > e.sel_start_y ∨ x ≥ e.sel_start_x) ∧
        (y < e.sel_end_y ∨ x < e.sel_end_x)) := by
  have h1 : ¬(e.selecting = false ∨ e.sel_start_x = -1) := by
    simp [hs, hv]
  have h2 : ¬(e.sel_end_y < e.sel_start_y ∨
      (e.sel_end_y = e.sel_start_y ∧ e.sel_end_x < e.sel_start_x)) := by
    omega
  unfold is_position_selected
  rw [if_neg h1, if_neg h2]
  unfold isSelAux
  split_ifs with a b c <;> simp <;> omega

/-- Witness for C9 at the concrete state `c9State` and position `(1,0)`. -/
theorem C9_contains_iff_witness :
    (c9State.selecting = true ∧ c9State.sel_start_x ≠ -1 ∧
      (c9State.sel_start_y < c9State.sel_end_y ∨
        (c9State.sel_start_y = c9State.sel_end_y ∧
          c9State.sel_start_x ≤ c9State.sel_end_x))) ∧
    (is_position_selected c9State 1 0 = true ↔
      (c9State.sel_start_y ≤ 0 ∧ (0 : Int) ≤ c9State.sel_end_y ∧
        ((0 : Int) > c9State.sel_start_y ∨ (1 : Int) ≥ c9State.sel_start_x) ∧
        ((0 : Int) < c9State.sel_end_y ∨ (1 : Int) < c9State.sel_end_x))) :=
  ⟨⟨rfl, by decide, by decide⟩,
    C9_contains_iff c9State 1 0 rfl (by decide) (by decide)⟩

/-- C10: `editor_paste` with a `NULL` clipboard or clipboard length zero
only sets the status message to "Nothing to paste": the rows, the cursor,
the selection, the clipboard and both operation stacks are exactly those of
the input state. -/
theorem C10_paste_empty_noop (e : EState)
    (h : e.clipboard = [] ∨ e.clipboard_len = 0) :
    editor_paste e = { e with statusmsg := "Nothing to paste" } := by
  unfold editor_paste
  rw [if_pos h]

/-- Witness for C10 at the concrete state `c10State`, whose clipboard is
empty because no copy was ever performed. -/
theorem C10_paste_empty_noop_witness :
    (c10State.clipboard = [] ∨ c10State.clipboard_len = 0) ∧
    editor_paste c10State = { c10State with statusmsg := "Nothing to paste" } :=
  ⟨Or.inl rfl, C10_paste_empty_noop c10State (Or.inl rfl)⟩

end Abczed
